import Mathlib

/-!
Verification of the scene/interaction state machine of the happy-birthday
repository (src/src/App.tsx and src/src/App.jsx, two near-duplicate
implementations whose handler logic is identical).

The embedding translates the React component state into an explicit state
record and the user-visible operations into a step function on events.
Click events are deliverable exactly when the corresponding element is
rendered, which the source determines by conditional rendering:
the door is rendered only while the stage is "door" (DoorScene, App.tsx
lines 313-351 and 396), the cake only while the stage is "cake"
(App.tsx line 418), the gift buttons only while the stage is "gifts"
(App.tsx line 430) and only for the eight catalog entries (App.tsx
lines 255-267), and the modal close controls only while the modal is
open (App.tsx lines 210-235).  The concurrency model follows the host
event loop: one event's state mutations are fully applied before the
next callback observes them.
-/

namespace HappyBirthday

/-- Stage type, App.tsx line 17: "door" | "cake" | "gifts". -/
inductive Stage where
  | door
  | cake
  | gifts
deriving DecidableEq, Repr

/-- Position of a stage along the intended progression door, cake, gifts. -/
def stageIdx : Stage → Nat
  | Stage.door => 0
  | Stage.cake => 1
  | Stage.gifts => 2

/-- GIFT_MESSAGES, App.tsx lines 238-247: the fixed gift catalog content. -/
def GIFT_MESSAGES : List String :=
  [ "Chúc bạn tuổi mới luôn rực rỡ như pháo hoa và nhẹ nhàng như bóng bay 🎈"
  , "Chúc mọi điều bạn ước đều gần hơn mỗi ngày ✨"
  , "Luôn khoẻ, luôn vui và cười thật tươi nhé! 😊"
  , "Thêm một tuổi – thêm nhiều hành trình đáng nhớ 💖"
  , "Công việc thuận lợi, tình cảm ngọt ngào, túi lúc nào cũng đầy! 💼💗"
  , "Đi đâu cũng gặp điều tốt lành và người dễ thương như bạn 🎁"
  , "Nỗ lực hôm nay là phép màu của ngày mai – cố lên nhé! 🌟"
  , "Chúc bạn luôn được yêu thương và yêu chính mình hơn 💝" ]

/-- ZONES, App.jsx lines 142-149: the six fixed zone anchors (percent
coordinates) for the decorative entities around the cake. -/
def ZONES : List (ℚ × ℚ) :=
  [ (85, 65), (17, 48), (15, 28), (80, 28), (20, 78), (75, 78) ]

/-- JITTER, App.jsx line 152: jitter box half-size in percent, per axis. -/
def JITTER : ℚ × ℚ := (1, 1)

/-- Number of decorative entities, App.jsx lines 136-138 and 156/164:
COUNT = min(images.length, 6); entries are the first COUNT images, or the
six fallback emoji when COUNT = 0, and the spots array has
entries.length elements. -/
def numEntities (imagesLen : Nat) : Nat :=
  let COUNT := min imagesLen 6
  if COUNT = 0 then 6 else COUNT

/-- One recomputed spot, App.jsx lines 157-158 and 165-166:
ZONES[i % 6].x + (random * 2 - 1) * JITTER.x per axis, where random is a
uniform draw from [0, 1). -/
def spotPos (i : Nat) (rx ry : ℚ) : ℚ × ℚ :=
  ( (ZONES.getD (i % 6) (0, 0)).1 + (rx * 2 - 1) * JITTER.1
  , (ZONES.getD (i % 6) (0, 0)).2 + (ry * 2 - 1) * JITTER.2 )

/-- One tick of the placement engine, App.jsx lines 162-170: rebuild the
whole spots array, entity i drawing its fresh random pair from the source
rnd. -/
def tickSpots (imagesLen : Nat) (rnd : Nat → ℚ × ℚ) : List (ℚ × ℚ) :=
  (List.range (numEntities imagesLen)).map
    (fun i => spotPos i (rnd i).1 (rnd i).2)

/-- Squared Euclidean distance between two anchor points. -/
def distSq (p q : ℚ × ℚ) : ℚ :=
  (p.1 - q.1) * (p.1 - q.1) + (p.2 - q.2) * (p.2 - q.2)

/-- The component state of BirthdaySurprise, App.tsx lines 355-359, plus
the global bridge variable window._pendingGiftId (App.tsx lines 381-389),
the multiset of pending setTimeout delays scheduled by handleBlowCandles
(App.tsx line 374), and the CakeAnimals spots array (App.jsx lines
155-160). -/
structure AppState where
  stage : Stage
  candlesLit : Bool
  modalOpen : Bool
  modalMsg : String
  openedIds : Finset Nat
  pendingGiftId : Option Nat
  giftsTimeouts : List Nat
  spots : List (ℚ × ℚ)
deriving DecidableEq

/-- handleEnter, App.tsx lines 367-369: setStage("cake"). -/
def handleEnter (s : AppState) : AppState :=
  { s with stage := Stage.cake }

/-- handleBlowCandles, App.tsx lines 371-375: setCandlesLit(false) and
schedule setStage("gifts") after 600 ms. -/
def handleBlowCandles (s : AppState) : AppState :=
  { s with candlesLit := false, giftsTimeouts := s.giftsTimeouts ++ [600] }

/-- handleOpenGift, App.tsx lines 377-382: setModalMsg(text),
setModalOpen(true), window._pendingGiftId = giftId. -/
def handleOpenGift (giftId : Nat) (text : String) (s : AppState) : AppState :=
  { s with modalMsg := text, modalOpen := true, pendingGiftId := some giftId }

/-- handleCloseModal, App.tsx lines 384-391: setModalOpen(false); if the
bridge variable holds a number, add it to openedIds and clear the bridge
(the typeof guard makes the no-pending case a safe no-op). -/
def handleCloseModal (s : AppState) : AppState :=
  match s.pendingGiftId with
  | some id =>
      { s with modalOpen := false
             , openedIds := insert id s.openedIds
             , pendingGiftId := none }
  | none => { s with modalOpen := false }

/-- The events the running page can experience: the four click events, the
firing of a pending blow-candles timeout, and a CakeAnimals interval tick
(carrying the random draws of that tick). -/
inductive Ev where
  | doorClick
  | cakeClick
  | giftClick (i : Nat)
  | modalClose
  | giftsTimeoutFire
  | animalsTick (rnd : Nat → ℚ × ℚ)

/-- One event step.  Guards are the source's conditional rendering and
inline checks: the door is clickable only at stage "door"; the cake button
runs onBlow only when lit (Cake onClick, App.tsx line 185) and is rendered
only at stage "cake"; gift button i exists only at stage "gifts" and only
for catalog indices; the modal close controls exist only while open; a
timeout can fire only if one is pending; the CakeAnimals interval is
alive only while the component is mounted, i.e. while stage is "cake"
(conditional render App.jsx lines 503-507 plus the useInterval cleanup
clearInterval on unmount, App.jsx lines 33-38). -/
def stepEv (e : Ev) (s : AppState) : AppState :=
  match e with
  | Ev.doorClick =>
      if s.stage = Stage.door then handleEnter s else s
  | Ev.cakeClick =>
      if s.stage = Stage.cake ∧ s.candlesLit then handleBlowCandles s else s
  | Ev.giftClick i =>
      if s.stage = Stage.gifts ∧ i < GIFT_MESSAGES.length then
        handleOpenGift i (GIFT_MESSAGES.getD i "") s
      else s
  | Ev.modalClose =>
      if s.modalOpen then handleCloseModal s else s
  | Ev.giftsTimeoutFire =>
      match s.giftsTimeouts with
      | [] => s
      | _ :: rest => { s with stage := Stage.gifts, giftsTimeouts := rest }
  | Ev.animalsTick rnd =>
      if s.stage = Stage.cake then { s with spots := tickSpots 6 rnd } else s

/-- Run a sequence of events. -/
def run (tr : List Ev) (s : AppState) : AppState :=
  match tr with
  | [] => s
  | e :: rest => run rest (stepEv e s)

/-- The initial state of a fresh session, App.tsx lines 355-359: stage
"door", candles lit, modal closed with empty message, no opened gifts, no
pending gift id, no pending timeout.  The initial spots array is drawn
randomly (App.jsx lines 155-160), so it is a parameter. -/
def initState (spots0 : List (ℚ × ℚ)) : AppState :=
  { stage := Stage.door
  , candlesLit := true
  , modalOpen := false
  , modalMsg := ""
  , openedIds := ∅
  , pendingGiftId := none
  , giftsTimeouts := []
  , spots := spots0 }

/-! ### Basic facts about the placement engine -/

lemma numEntities_le_six (imagesLen : Nat) : numEntities imagesLen ≤ 6 := by
  simp only [numEntities]
  split <;> omega

lemma numEntities_pos (imagesLen : Nat) : 0 < numEntities imagesLen := by
  simp only [numEntities]
  split <;> omega

lemma tickSpots_getD (imagesLen : Nat) (rnd : Nat → ℚ × ℚ) (i : Nat)
    (h : i < numEntities imagesLen) :
    (tickSpots imagesLen rnd).getD i (0, 0) = spotPos i (rnd i).1 (rnd i).2 := by
  unfold tickSpots
  rw [List.getD_eq_getElem?_getD]
  simp [List.getElem?_map, List.getElem?_range, h]

lemma spotPos_bound (i : Nat) (rx ry : ℚ)
    (hx0 : 0 ≤ rx) (hx1 : rx < 1) (hy0 : 0 ≤ ry) (hy1 : ry < 1) :
    |(spotPos i rx ry).1 - (ZONES.getD (i % 6) (0, 0)).1| ≤ JITTER.1 ∧
    |(spotPos i rx ry).2 - (ZONES.getD (i % 6) (0, 0)).2| ≤ JITTER.2 := by
  simp only [spotPos, JITTER]
  constructor <;>
  · rw [abs_le]
    constructor <;> [nlinarith; nlinarith]

lemma zones_separated : ∀ i, i < 6 → ∀ j, j < 6 → i ≠ j →
    4 * (JITTER.1 * JITTER.1 + JITTER.2 * JITTER.2)
      < distSq (ZONES.getD i (0, 0)) (ZONES.getD j (0, 0)) := by
  intro i hi j hj hne
  interval_cases i <;> interval_cases j <;>
    simp_all [ZONES, JITTER, distSq] <;> norm_num

/-! ### Invariants of the event system -/

/-- A pending blow-candles timeout implies the stage has left the door
(the timeout is scheduled only from the cake stage, and nothing ever
returns the stage to the door). -/
def stageInv (s : AppState) : Prop :=
  s.giftsTimeouts ≠ [] → s.stage ≠ Stage.door

lemma stepEv_stageInv (e : Ev) (s : AppState) (h : stageInv s) :
    stageInv (stepEv e s) := by
  cases e with
  | doorClick =>
      by_cases hd : s.stage = Stage.door
      · intro _
        simp [stepEv, hd, handleEnter]
      · simpa [stepEv, hd] using h
  | cakeClick =>
      by_cases hc : s.stage = Stage.cake ∧ s.candlesLit
      · intro _
        simp [stepEv, hc, handleBlowCandles, hc.1]
      · simpa [stepEv, hc] using h
  | giftClick i =>
      by_cases hg : s.stage = Stage.gifts ∧ i < GIFT_MESSAGES.length
      · intro hne
        simp only [stepEv, if_pos hg, handleOpenGift] at hne ⊢
        simpa using h hne
      · simpa [stepEv, hg] using h
  | modalClose =>
      by_cases hm : s.modalOpen = true
      · intro hne
        simp only [stepEv, if_pos hm] at hne ⊢
        unfold handleCloseModal at hne ⊢
        cases hp : s.pendingGiftId <;> simp [hp] at hne ⊢ <;> exact h hne
      · simpa [stepEv, hm] using h
  | giftsTimeoutFire =>
      cases hts : s.giftsTimeouts with
      | nil => simpa [stepEv, hts] using h
      | cons t rest =>
          intro _
          simp [stepEv, hts]
  | animalsTick rnd =>
      by_cases ha : s.stage = Stage.cake
      · intro hne
        simp only [stepEv, if_pos ha] at hne ⊢
        simp [ha]
      · simpa [stepEv, ha] using h

lemma stepEv_stage_mono (e : Ev) (s : AppState) (h : stageInv s) :
    stageIdx s.stage ≤ stageIdx (stepEv e s).stage := by
  cases e with
  | doorClick =>
      by_cases hd : s.stage = Stage.door
      · simp [stepEv, hd, handleEnter, stageIdx]
      · simp [stepEv, hd]
  | cakeClick =>
      by_cases hc : s.stage = Stage.cake ∧ s.candlesLit
      · simp [stepEv, hc, handleBlowCandles]
      · simp [stepEv, hc]
  | giftClick i =>
      by_cases hg : s.stage = Stage.gifts ∧ i < GIFT_MESSAGES.length
      · simp [stepEv, hg, handleOpenGift]
      · simp [stepEv, hg]
  | modalClose =>
      by_cases hm : s.modalOpen = true
      · simp only [stepEv, if_pos hm]
        unfold handleCloseModal
        cases hp : s.pendingGiftId <;> simp [hp]
      · simp [stepEv, hm]
  | giftsTimeoutFire =>
      cases hts : s.giftsTimeouts with
      | nil => simp [stepEv, hts]
      | cons t rest =>
          have hst : s.stage ≠ Stage.door := h (by simp [hts])
          cases hcs : s.stage <;> simp_all [stepEv, hts, stageIdx]
  | animalsTick rnd =>
      by_cases ha : s.stage = Stage.cake
      · simp [stepEv, ha]
      · simp [stepEv, ha]

lemma run_stageInv (tr : List Ev) (s : AppState) (h : stageInv s) :
    stageInv (run tr s) := by
  induction tr generalizing s with
  | nil => exact h
  | cons e rest ih => exact ih _ (stepEv_stageInv e s h)

lemma run_stage_mono (tr : List Ev) (s : AppState) (h : stageInv s) :
    stageIdx s.stage ≤ stageIdx (run tr s).stage := by
  induction tr generalizing s with
  | nil => exact le_refl _
  | cons e rest ih =>
      exact le_trans (stepEv_stage_mono e s h) (ih _ (stepEv_stageInv e s h))

lemma initState_stageInv (spots0 : List (ℚ × ℚ)) : stageInv (initState spots0) := by
  intro hne
  simp [initState] at hne

lemma run_append (tr1 tr2 : List Ev) (s : AppState) :
    run (tr1 ++ tr2) s = run tr2 (run tr1 s) := by
  induction tr1 generalizing s with
  | nil => rfl
  | cons e rest ih => simp [run, ih]

lemma stepEv_openedIds_subset (e : Ev) (s : AppState) :
    s.openedIds ⊆ (stepEv e s).openedIds := by
  cases e with
  | doorClick =>
      by_cases hd : s.stage = Stage.door <;> simp [stepEv, hd, handleEnter]
  | cakeClick =>
      by_cases hc : s.stage = Stage.cake ∧ s.candlesLit <;>
        simp [stepEv, hc, handleBlowCandles]
  | giftClick i =>
      by_cases hg : s.stage = Stage.gifts ∧ i < GIFT_MESSAGES.length <;>
        simp [stepEv, hg, handleOpenGift]
  | modalClose =>
      by_cases hm : s.modalOpen = true
      · simp only [stepEv, if_pos hm]
        unfold handleCloseModal
        cases hp : s.pendingGiftId with
        | none => simp
        | some id =>
            simp only
            exact Finset.subset_insert id s.openedIds
      · simp [stepEv, hm]
  | giftsTimeoutFire =>
      cases hts : s.giftsTimeouts <;> simp [stepEv, hts]
  | animalsTick rnd =>
      by_cases ha : s.stage = Stage.cake <;> simp [stepEv, ha]

lemma run_openedIds_subset (tr : List Ev) (s : AppState) :
    s.openedIds ⊆ (run tr s).openedIds := by
  induction tr generalizing s with
  | nil => exact Finset.Subset.refl _
  | cons e rest ih =>
      exact Finset.Subset.trans (stepEv_openedIds_subset e s) (ih _)

/-- Every id ever recorded in openedIds, and any id held by the pending
bridge, is a catalog index: out-of-range ids are never committed. -/
def idsInv (s : AppState) : Prop :=
    (∀ id ∈ s.openedIds, id < GIFT_MESSAGES.length) ∧
    (∀ id, s.pendingGiftId = some id → id < GIFT_MESSAGES.length)

lemma stepEv_idsInv (e : Ev) (s : AppState) (h : idsInv s) :
    idsInv (stepEv e s) := by
  obtain ⟨h1, h2⟩ := h
  cases e with
  | doorClick =>
      by_cases hd : s.stage = Stage.door <;>
        simpa [stepEv, hd, handleEnter, idsInv] using ⟨h1, h2⟩
  | cakeClick =>
      by_cases hc : s.stage = Stage.cake ∧ s.candlesLit <;>
        simpa [stepEv, hc, handleBlowCandles, idsInv] using ⟨h1, h2⟩
  | giftClick i =>
      by_cases hg : s.stage = Stage.gifts ∧ i < GIFT_MESSAGES.length
      · refine ⟨?_, ?_⟩
        · simpa [stepEv, hg, handleOpenGift] using h1
        · intro id hid
          simp [stepEv, hg, handleOpenGift] at hid
          omega
      · simpa [stepEv, hg, idsInv] using ⟨h1, h2⟩
  | modalClose =>
      by_cases hm : s.modalOpen = true
      · simp only [stepEv, if_pos hm]
        unfold handleCloseModal
        cases hp : s.pendingGiftId with
        | none => simpa [idsInv] using h1
        | some id =>
            refine ⟨?_, ?_⟩
            · intro k hk
              simp at hk
              rcases hk with hk | hk
              · exact hk ▸ h2 id hp
              · exact h1 k hk
            · intro k hk
              simp at hk
      · simpa [stepEv, hm, idsInv] using ⟨h1, h2⟩
  | giftsTimeoutFire =>
      cases hts : s.giftsTimeouts <;>
        simpa [stepEv, hts, idsInv] using ⟨h1, h2⟩
  | animalsTick rnd =>
      by_cases ha : s.stage = Stage.cake <;>
        simpa [stepEv, ha, idsInv] using ⟨h1, h2⟩

lemma run_idsInv (tr : List Ev) (s : AppState) (h : idsInv s) :
    idsInv (run tr s) := by
  induction tr generalizing s with
  | nil => exact h
  | cons e rest ih => exact ih _ (stepEv_idsInv e s h)

lemma initState_idsInv (spots0 : List (ℚ × ℚ)) : idsInv (initState spots0) := by
  constructor
  · intro id hid
    simp [initState] at hid
  · intro id hid
    simp [initState] at hid

lemma stepEv_gifts_frozen (e : Ev) (s : AppState) (h : s.stage = Stage.gifts) :
    (stepEv e s).spots = s.spots ∧ (stepEv e s).stage = Stage.gifts := by
  cases e with
  | doorClick => simp [stepEv, h]
  | cakeClick => simp [stepEv, h]
  | giftClick i =>
      simp only [stepEv]
      split
      · simp [handleOpenGift, h]
      · exact ⟨rfl, h⟩
  | modalClose =>
      by_cases hm : s.modalOpen = true
      · simp only [stepEv, if_pos hm]
        unfold handleCloseModal
        cases hp : s.pendingGiftId <;> simp [h]
      · simp [stepEv, hm, h]
  | giftsTimeoutFire =>
      cases hts : s.giftsTimeouts <;> simp [stepEv, hts, h]
  | animalsTick rnd => simp [stepEv, h]

lemma run_gifts_frozen (tr : List Ev) (s : AppState) (h : s.stage = Stage.gifts) :
    (run tr s).spots = s.spots ∧ (run tr s).stage = Stage.gifts := by
  induction tr generalizing s with
  | nil => exact ⟨rfl, h⟩
  | cons e rest ih =>
      obtain ⟨hsp, hst⟩ := stepEv_gifts_frozen e s h
      obtain ⟨hsp2, hst2⟩ := ih _ hst
      exact ⟨hsp2.trans hsp, hst2⟩

/-! ### Claim theorems -/

/-- C1: Along every event sequence from a fresh session, the stage only
ever progresses door, cake, gifts and never regresses (stageIdx is
monotone along every extension of every trace); and the enter operation
received when the stage is already past the door — possible only through
the door, which the source renders solely at stage "door" — is a no-op
that does not move the stage back. -/
theorem stage_monotone_and_enter_noop :
    (∀ (spots0 : List (ℚ × ℚ)) (tr ext : List Ev),
        stageIdx ((run tr (initState spots0)).stage)
          ≤ stageIdx ((run (tr ++ ext) (initState spots0)).stage)) ∧
    (∀ s : AppState, s.stage ≠ Stage.door → stepEv Ev.doorClick s = s) := by
  constructor
  · intro spots0 tr ext
    rw [run_append]
    exact run_stage_mono ext _ (run_stageInv tr _ (initState_stageInv spots0))
  · intro s hs
    simp [stepEv, hs]

/-- Witness for C1: a door click at the gifts stage leaves the state
unchanged. -/
theorem stage_monotone_and_enter_noop_witness :
    stepEv Ev.doorClick { initState [] with stage := Stage.gifts }
      = { initState [] with stage := Stage.gifts } :=
  stage_monotone_and_enter_noop.2
    { initState [] with stage := Stage.gifts } (by decide)

/-- C2: blowCandles has exactly-once semantics: a cake click while the
candles are already out is a no-op, and two cake clicks in immediate
succession from a valid lit cake state schedule exactly one 600 ms
transition to the gifts stage, with the candles staying out. -/
theorem blowCandles_exactly_once :
    (∀ s : AppState, s.candlesLit = false → stepEv Ev.cakeClick s = s) ∧
    (∀ s : AppState, s.stage = Stage.cake → s.candlesLit = true →
        (stepEv Ev.cakeClick (stepEv Ev.cakeClick s)).giftsTimeouts
            = s.giftsTimeouts ++ [600] ∧
        (stepEv Ev.cakeClick (stepEv Ev.cakeClick s)).candlesLit = false) := by
  constructor
  · intro s hs
    simp [stepEv, hs]
  · intro s h1 h2
    simp [stepEv, h1, h2, handleBlowCandles]

/-- Witness for C2: double cake click from the freshly entered cake state
yields one pending 600 ms timeout and unlit candles. -/
theorem blowCandles_exactly_once_witness :
    (stepEv Ev.cakeClick (stepEv Ev.cakeClick
        { initState [] with stage := Stage.cake })).giftsTimeouts
      = ({ initState [] with stage := Stage.cake } : AppState).giftsTimeouts
          ++ [600] ∧
    (stepEv Ev.cakeClick (stepEv Ev.cakeClick
        { initState [] with stage := Stage.cake })).candlesLit = false :=
  blowCandles_exactly_once.2 { initState [] with stage := Stage.cake }
    (by decide) (by decide)

/-- C3: A valid blow (stage cake, candles lit) sets candlesLit to false
synchronously, does not change the stage synchronously, schedules the
gifts transition with the fixed 600 ms delay, and the scheduled callback,
when it later fires, moves the stage to gifts. -/
theorem blowCandles_effect_order (s : AppState)
    (h1 : s.stage = Stage.cake) (h2 : s.candlesLit = true) :
    (stepEv Ev.cakeClick s).candlesLit = false ∧
    (stepEv Ev.cakeClick s).stage = Stage.cake ∧
    (stepEv Ev.cakeClick s).giftsTimeouts = s.giftsTimeouts ++ [600] ∧
    (stepEv Ev.giftsTimeoutFire (stepEv Ev.cakeClick s)).stage
      = Stage.gifts := by
  have hstep : stepEv Ev.cakeClick s = handleBlowCandles s := by
    simp [stepEv, h1, h2]
  rw [hstep]
  refine ⟨rfl, by simpa [handleBlowCandles] using h1, rfl, ?_⟩
  cases hts : s.giftsTimeouts <;> simp [stepEv, handleBlowCandles, hts]

/-- Witness for C3: the blow from the freshly entered cake state. -/
theorem blowCandles_effect_order_witness :
    (stepEv Ev.cakeClick { initState [] with stage := Stage.cake }).candlesLit
        = false ∧
    (stepEv Ev.cakeClick { initState [] with stage := Stage.cake }).stage
        = Stage.cake ∧
    (stepEv Ev.cakeClick { initState [] with stage := Stage.cake }).giftsTimeouts
        = ({ initState [] with stage := Stage.cake } : AppState).giftsTimeouts
            ++ [600] ∧
    (stepEv Ev.giftsTimeoutFire
        (stepEv Ev.cakeClick { initState [] with stage := Stage.cake })).stage
      = Stage.gifts :=
  blowCandles_effect_order { initState [] with stage := Stage.cake }
    (by decide) (by decide)

/-- C4: handleCloseModal always clears the modal open flag; when a pending
gift id is set it inserts that id into openedIds and clears the pending
id; when no pending id is set it is a total, safe no-op on openedIds. -/
theorem closeModal_safe (s : AppState) :
    (handleCloseModal s).modalOpen = false ∧
    (∀ id, s.pendingGiftId = some id →
        (handleCloseModal s).openedIds = insert id s.openedIds ∧
        (handleCloseModal s).pendingGiftId = none) ∧
    (s.pendingGiftId = none →
        (handleCloseModal s).openedIds = s.openedIds) := by
  unfold handleCloseModal
  cases hp : s.pendingGiftId with
  | none => simp
  | some id => simp

/-- Witness for C4: closing with pending gift 5 commits exactly gift 5,
and closing with no pending id leaves the set untouched. -/
theorem closeModal_safe_witness :
    (handleCloseModal { initState [] with pendingGiftId := some 5 }).openedIds
        = insert 5 ({ initState [] with pendingGiftId := some 5 } :
            AppState).openedIds ∧
    (handleCloseModal (initState [])).openedIds = (initState []).openedIds :=
  ⟨((closeModal_safe { initState [] with pendingGiftId := some 5 }).2.1
      5 rfl).1,
   (closeModal_safe (initState [])).2.2 rfl⟩

/-- C5: handleOpenGift sets the modal state fields open, messageText and
pendingGiftId for every gift id and message, independently of whether the
gift is already a member of openedIds; the commit on close is a set
insert, so re-opening an already-opened gift re-shows its message without
duplicating its entry. -/
theorem openGift_modal_spec (s : AppState) (id : Nat) (m : String) :
    (handleOpenGift id m s).modalOpen = true ∧
    (handleOpenGift id m s).modalMsg = m ∧
    (handleOpenGift id m s).pendingGiftId = some id ∧
    (handleCloseModal (handleOpenGift id m s)).openedIds
        = insert id s.openedIds ∧
    (id ∈ s.openedIds →
        (handleCloseModal (handleOpenGift id m s)).openedIds
          = s.openedIds) := by
  refine ⟨rfl, rfl, rfl, ?_, ?_⟩
  · simp [handleOpenGift, handleCloseModal]
  · intro hmem
    simp [handleOpenGift, handleCloseModal, Finset.insert_eq_self.mpr hmem]

/-- Witness for C5: re-opening gift 2 when it is already opened re-shows
its message and leaves the set unchanged. -/
theorem openGift_modal_spec_witness :
    (handleOpenGift 2 "m" { initState [] with openedIds := {2} }).modalMsg
        = "m" ∧
    (handleCloseModal (handleOpenGift 2 "m"
        { initState [] with openedIds := {2} })).openedIds
      = ({ initState [] with openedIds := {2} } : AppState).openedIds :=
  ⟨(openGift_modal_spec { initState [] with openedIds := {2} } 2 "m").2.1,
   (openGift_modal_spec { initState [] with openedIds := {2} } 2 "m").2.2.2.2
     (by decide)⟩

/-- C6: openedIds grows monotonically — once a gift id is in the set it
stays in the set under every subsequent event; for every catalog gift id,
opening it and then closing the modal makes the id a member; the
open-then-close cycle commits any such id with an idempotent insert even
when repeated; and in the full concrete session opening and closing gift
3 twice leaves the set equal to {3}, holding that id exactly once. -/
theorem openedIds_monotone_idem :
    (∀ (s : AppState) (tr : List Ev) (id : Nat),
        id ∈ s.openedIds → id ∈ (run tr s).openedIds) ∧
    (∀ (s : AppState) (id : Nat), s.stage = Stage.gifts →
        id < GIFT_MESSAGES.length →
        id ∈ (run [Ev.giftClick id, Ev.modalClose] s).openedIds) ∧
    (∀ (s : AppState) (id : Nat), s.stage = Stage.gifts →
        id < GIFT_MESSAGES.length →
        (run [Ev.giftClick id, Ev.modalClose, Ev.giftClick id, Ev.modalClose]
            s).openedIds = insert id s.openedIds) ∧
    ((run [Ev.doorClick, Ev.cakeClick, Ev.giftsTimeoutFire, Ev.giftClick 3,
          Ev.modalClose, Ev.giftClick 3, Ev.modalClose]
        (initState [])).openedIds = {3} ∧
      (run [Ev.doorClick, Ev.cakeClick, Ev.giftsTimeoutFire, Ev.giftClick 3,
          Ev.modalClose, Ev.giftClick 3, Ev.modalClose]
        (initState [])).openedIds.card = 1) := by
  refine ⟨?_, ?_, ?_, by decide, by decide⟩
  · intro s tr id h
    exact run_openedIds_subset tr s h
  · intro s id h hid
    simp [run, stepEv, h, hid, handleOpenGift, handleCloseModal]
  · intro s id h hid
    simp [run, stepEv, h, hid, handleOpenGift, handleCloseModal]

/-- Witness for C6: opening then closing gift 5 from a gifts-stage state
records gift 5, and the double open-close of gift 3 yields exactly one
inserted entry. -/
theorem openedIds_monotone_idem_witness :
    5 ∈ (run [Ev.giftClick 5, Ev.modalClose]
        { initState [] with stage := Stage.gifts }).openedIds ∧
    (run [Ev.giftClick 3, Ev.modalClose, Ev.giftClick 3, Ev.modalClose]
        { initState [] with stage := Stage.gifts }).openedIds
      = insert 3 ({ initState [] with stage := Stage.gifts } :
          AppState).openedIds :=
  ⟨openedIds_monotone_idem.2.1 { initState [] with stage := Stage.gifts } 5
     (by decide) (by decide),
   openedIds_monotone_idem.2.2.1 { initState [] with stage := Stage.gifts } 3
     (by decide) (by decide)⟩

/-- C7: No event sequence from a fresh session ever records an
out-of-catalog gift id (the catalog has 8 entries) in openedIds, and a
gift click carrying an out-of-range id is ignored as a defensive no-op,
never a failure. -/
theorem out_of_range_gift_defensive :
    (∀ (spots0 : List (ℚ × ℚ)) (tr : List Ev) (id : Nat),
        GIFT_MESSAGES.length ≤ id →
        id ∉ (run tr (initState spots0)).openedIds) ∧
    (∀ (s : AppState) (id : Nat), GIFT_MESSAGES.length ≤ id →
        stepEv (Ev.giftClick id) s = s) := by
  constructor
  · intro spots0 tr id hid hmem
    have h := (run_idsInv tr _ (initState_idsInv spots0)).1 id hmem
    omega
  · intro s id hid
    have hcond : ¬(s.stage = Stage.gifts ∧ id < GIFT_MESSAGES.length) := by
      rintro ⟨-, h⟩
      omega
    simp [stepEv, hcond]

/-- Witness for C7: id 8 is outside the catalog; it is never recorded and
clicking it at the gifts stage changes nothing. -/
theorem out_of_range_gift_defensive_witness :
    8 ∉ (run [Ev.doorClick] (initState [])).openedIds ∧
    stepEv (Ev.giftClick 8) { initState [] with stage := Stage.gifts }
      = { initState [] with stage := Stage.gifts } :=
  ⟨out_of_range_gift_defensive.1 [] [Ev.doorClick] 8 (by decide),
   out_of_range_gift_defensive.2 { initState [] with stage := Stage.gifts }
     8 (by decide)⟩

/-- C8: There are at most 6 decorative entities; on every tick entity i's
position lies within its own anchor ZONES[i] plus or minus the 1-percent
jitter bound, independently per axis; distinct entities use distinct zone
indices; and the jitter amplitude is below half the minimum distance
between any two anchors (stated on squared distances). -/
theorem placement_bounded_zones :
    (∀ imagesLen : Nat, numEntities imagesLen ≤ 6) ∧
    (∀ (imagesLen : Nat) (rnd : Nat → ℚ × ℚ) (i : Nat),
        i < numEntities imagesLen →
        (∀ k, 0 ≤ (rnd k).1 ∧ (rnd k).1 < 1 ∧
              0 ≤ (rnd k).2 ∧ (rnd k).2 < 1) →
        |((tickSpots imagesLen rnd).getD i (0, 0)).1
            - (ZONES.getD i (0, 0)).1| ≤ JITTER.1 ∧
        |((tickSpots imagesLen rnd).getD i (0, 0)).2
            - (ZONES.getD i (0, 0)).2| ≤ JITTER.2) ∧
    (∀ i j, i < 6 → j < 6 → i ≠ j → i % 6 ≠ j % 6) ∧
    (∀ i j, i < 6 → j < 6 → i ≠ j →
        4 * (JITTER.1 * JITTER.1 + JITTER.2 * JITTER.2)
          < distSq (ZONES.getD i (0, 0)) (ZONES.getD j (0, 0))) := by
  refine ⟨numEntities_le_six, ?_, ?_, fun i j hi hj => zones_separated i hi j hj⟩
  · intro imagesLen rnd i hi hr
    have hmod : i % 6 = i :=
      Nat.mod_eq_of_lt (lt_of_lt_of_le hi (numEntities_le_six imagesLen))
    rw [tickSpots_getD imagesLen rnd i hi]
    have hb := spotPos_bound i (rnd i).1 (rnd i).2
      (hr i).1 (hr i).2.1 (hr i).2.2.1 (hr i).2.2.2
    rwa [hmod] at hb
  · intro i j hi hj hne
    simpa [Nat.mod_eq_of_lt hi, Nat.mod_eq_of_lt hj] using hne

/-- Witness for C8: a tick with all random draws equal to one half keeps
entity 0 within its anchor's jitter box. -/
theorem placement_bounded_zones_witness :
    |((tickSpots 6 (fun _ => (1 / 2, 1 / 2))).getD 0 (0, 0)).1
        - (ZONES.getD 0 (0, 0)).1| ≤ JITTER.1 ∧
    |((tickSpots 6 (fun _ => (1 / 2, 1 / 2))).getD 0 (0, 0)).2
        - (ZONES.getD 0 (0, 0)).2| ≤ JITTER.2 :=
  placement_bounded_zones.2.1 6 (fun _ => (1 / 2, 1 / 2)) 0 (by decide)
    (fun _ => ⟨by norm_num, by norm_num, by norm_num, by norm_num⟩)

/-- C9: once the stage has left cake for gifts, the CakeAnimals interval
is gone (the component is unmounted and its useInterval cleanup runs), so
no further event — in particular no number of subsequent interval
ticks — ever changes the decorative spots, and the stage stays at
gifts. -/
theorem animals_tick_stops_after_cake (s : AppState) (tr : List Ev)
    (h : s.stage = Stage.gifts) :
    (run tr s).spots = s.spots ∧ (run tr s).stage = Stage.gifts :=
  run_gifts_frozen tr s h

/-- Witness for C9: two ticks arriving after the transition to gifts leave
the last spots snapshot untouched. -/
theorem animals_tick_stops_after_cake_witness :
    (run [Ev.animalsTick (fun _ => (0, 0)),
          Ev.animalsTick (fun _ => (1 / 2, 1 / 2))]
        { initState [(1, 1)] with stage := Stage.gifts }).spots
      = ({ initState [(1, 1)] with stage := Stage.gifts } : AppState).spots ∧
    (run [Ev.animalsTick (fun _ => (0, 0)),
          Ev.animalsTick (fun _ => (1 / 2, 1 / 2))]
        { initState [(1, 1)] with stage := Stage.gifts }).stage
      = Stage.gifts :=
  animals_tick_stops_after_cake
    { initState [(1, 1)] with stage := Stage.gifts }
    [Ev.animalsTick (fun _ => (0, 0)),
     Ev.animalsTick (fun _ => (1 / 2, 1 / 2))] (by decide)

/-- C10: a second openGift before any close overwrites the pending gift
id rather than queueing it: the following close commits only the second
id, and the first id — if not already opened — is not recorded by the
sequence. -/
theorem pending_gift_overwrite (s : AppState) (id1 id2 : Nat)
    (m1 m2 : String) :
    (handleOpenGift id2 m2 (handleOpenGift id1 m1 s)).pendingGiftId
        = some id2 ∧
    (handleCloseModal (handleOpenGift id2 m2
        (handleOpenGift id1 m1 s))).openedIds = insert id2 s.openedIds ∧
    (id1 ∉ s.openedIds → id1 ≠ id2 →
        id1 ∉ (handleCloseModal (handleOpenGift id2 m2
            (handleOpenGift id1 m1 s))).openedIds) := by
  refine ⟨rfl, ?_, ?_⟩
  · simp [handleOpenGift, handleCloseModal]
  · intro hno hne
    simp [handleOpenGift, handleCloseModal, hne, hno]

/-- Witness for C10: opening gift 1 then gift 2 and closing once records
only gift 2. -/
theorem pending_gift_overwrite_witness :
    (handleCloseModal (handleOpenGift 2 "b" (handleOpenGift 1 "a"
        (initState [])))).openedIds = insert 2 (initState []).openedIds ∧
    1 ∉ (handleCloseModal (handleOpenGift 2 "b" (handleOpenGift 1 "a"
        (initState [])))).openedIds :=
  ⟨(pending_gift_overwrite (initState []) 1 2 "a" "b").2.1,
   (pending_gift_overwrite (initState []) 1 2 "a" "b").2.2
     (by decide) (by decide)⟩

end HappyBirthday
